import Mathlib

/-!
Verification development for the Property_Underwriter multi-source
property-record aggregation and merge engine.

The definitions below are a shallow embedding of the Python source:

* `src/services/property_merging.py` — `NormalizedPropertyRecord`,
  `FieldSourceInfo`, `MergedPropertyResult`, `ProviderCache`,
  `_pick_value`, `merge_property_records`, `normalize_property_data`.
* `src/core/models.py` — `Address`, `ApiSource`, `PropertyData`,
  `SourceAttribution`.
* `src/services/data_providers/models.py` — `PropertyDataPatch`,
  `ProviderMetadata`, `ProviderResult`, `record_source`.
* `src/services/data_providers/aggregation.py` — `DataAggregationService`.
* `src/services/data_providers/adapters.py` — `LegacyProviderAdapter`.

Conventions of the embedding: Python `float` fields become `ℚ`,
non-negative `int` fields become `ℕ`, timestamps become `ℕ` ticks passed
explicitly (the code reads the wall clock), `Optional[T]` becomes
`Option T`, raised exceptions become `Except.error`, and Python `dict`
objects (insertion-ordered, unique keys) become association lists with
the operations `dget` / `dset` / `dsetdefault` / `dremove` below, which
reproduce CPython's ordered-dict observable behaviour.
-/

/-- Lookup in an insertion-ordered string-keyed map (Python `d.get(k)` /
`d[k]`): the first entry with the key wins. -/
def dget {β : Type} : List (String × β) → String → Option β
  | [], _ => none
  | e :: t, k => if e.1 = k then some e.2 else dget t k

/-- Assignment `d[k] = v` on a Python dict: update the value in place if
the key exists (keeping its position), otherwise append the entry. -/
def dset {β : Type} : List (String × β) → String → β → List (String × β)
  | [], k, v => [(k, v)]
  | e :: t, k, v => if e.1 = k then (k, v) :: t else e :: dset t k v

/-- Python `d.setdefault(k, v)`: insert only when the key is absent. -/
def dsetdefault {β : Type} : List (String × β) → String → β → List (String × β)
  | [], k, v => [(k, v)]
  | e :: t, k, v => if e.1 = k then e :: t else e :: dsetdefault t k v

/-- Python `d.pop(k, None)`: drop the entry with the key, if present. -/
def dremove {β : Type} : List (String × β) → String → List (String × β)
  | [], _ => []
  | e :: t, k => if e.1 = k then t else e :: dremove t k

/-- `src/core/models.py` — `Address` (the field validators are not
needed by any claim; addresses are carried opaquely by the merge). -/
structure Address where
  line1 : String
  city : String
  state : String
  zip : String
deriving DecidableEq

/-- `src/core/models.py` — `ApiSource` enum. -/
inductive ApiSource where
  | ZILLOW | RENTOMETER | ATTOM | CLOSINGCORP | ESTATED | RENTCAST
  | REDFIN | MD_IMAP | MASS_GIS | MOCK | HUD | MARKETPLACE
deriving DecidableEq

/-- The `.value` string of each `ApiSource` member. -/
def ApiSource.value : ApiSource → String
  | .ZILLOW => "zillow"
  | .RENTOMETER => "rentometer"
  | .ATTOM => "attom"
  | .CLOSINGCORP => "closingcorp"
  | .ESTATED => "estated"
  | .RENTCAST => "rentcast"
  | .REDFIN => "redfin"
  | .MD_IMAP => "md_imap"
  | .MASS_GIS => "mass_gis"
  | .MOCK => "mock"
  | .HUD => "hud_fmr"
  | .MARKETPLACE => "marketplace_comps"

/-- `src/core/models.py` — `SourceAttribution`. -/
structure SourceAttribution where
  provider : String
  fields : List String := []
  fetched_at : ℕ
  request_id : Option String := none
  raw_reference : Option String := none
deriving DecidableEq

/-- `src/core/models.py` — `PropertyData` (canonical snapshot). -/
structure PropertyData where
  address : Address
  beds : Option ℚ := none
  baths : Option ℚ := none
  sqft : Option ℕ := none
  lot_sqft : Option ℕ := none
  year_built : Option ℕ := none
  market_value_estimate : Option ℚ := none
  rent_estimate : Option ℚ := none
  annual_taxes : Option ℚ := none
  closing_cost_estimate : Option ℚ := none
  meta : List (String × String) := []
  sources : List ApiSource := []
  provenance : List SourceAttribution := []
deriving DecidableEq

/-- `src/services/property_merging.py` — `NormalizedPropertyRecord`. -/
structure NormalizedPropertyRecord where
  provider : String
  fetched_at : ℕ
  address : Address
  beds : Option ℚ := none
  baths : Option ℚ := none
  sqft : Option ℕ := none
  lot_sqft : Option ℕ := none
  year_built : Option ℕ := none
  market_value_estimate : Option ℚ := none
  rent_estimate : Option ℚ := none
  annual_taxes : Option ℚ := none
  owner_name : Option String := none
  land_use_code : Option String := none
  property_type : Option String := none
  closing_cost_estimate : Option ℚ := none
  geometry : Option String := none
  raw : Option String := none
  meta : List (String × String) := []
deriving DecidableEq

/-- `src/services/property_merging.py` — `FieldSourceInfo`. -/
structure FieldSourceInfo where
  field : String
  provider : String
  reason : String
deriving DecidableEq

/-- `src/services/property_merging.py` — `MergedPropertyResult`. -/
structure MergedPropertyResult where
  property : PropertyData
  field_sources : List FieldSourceInfo
  all_raw_records : List NormalizedPropertyRecord
deriving DecidableEq

/-- `src/services/property_merging.py` — `ProviderCache`.  Time is an
explicit `ℕ` tick (the code uses `datetime.now(UTC)`); `ttl` is the
`timedelta` stored by `__init__` in the same unit. -/
structure ProviderCache where
  ttl : ℕ
  store : List (String × (ℕ × NormalizedPropertyRecord)) := []

/-- `ProviderCache.set`: store the record with expiry `now + ttl`. -/
def ProviderCache.set (c : ProviderCache) (key : String)
    (record : NormalizedPropertyRecord) (now : ℕ) : ProviderCache :=
  { c with store := dset c.store key (now + c.ttl, record) }

/-- `ProviderCache.get`: miss on an absent key; lazily evict and miss
when `now > expires_at`; otherwise return the record.  The returned
cache is the possibly-evicted store. -/
def ProviderCache.get (c : ProviderCache) (key : String) (now : ℕ) :
    Option NormalizedPropertyRecord × ProviderCache :=
  match dget c.store key with
  | none => (none, c)
  | some entry =>
    if entry.1 < now then (none, { c with store := dremove c.store key })
    else (some entry.2, c)

/-- The inner loop of `_pick_value`: scan `records` in order for one
from `provider` carrying a non-null value of the field `f`; a matching
record with a null value is skipped and the scan continues. -/
def scan_provider {α : Type} (f : NormalizedPropertyRecord → Option α)
    (p : String) : List NormalizedPropertyRecord → Option α
  | [] => none
  | r :: t =>
    if r.provider = p then
      match f r with
      | some v => some v
      | none => scan_provider f p t
    else scan_provider f p t

/-- `_pick_value`: walk the priority list; the first provider with a
non-null value wins; return `(value, provider)`, or `(None, None)` when
no provider supplied the field. -/
def pick_value {α : Type} (f : NormalizedPropertyRecord → Option α)
    (records : List NormalizedPropertyRecord) :
    List String → Option α × Option String
  | [] => (none, none)
  | p :: ps =>
    match scan_provider f p records with
    | some v => (some v, some p)
    | none => pick_value f records ps

/-- `assessor_priority` list from `merge_property_records`. -/
def assessor_priority : List String :=
  ["MD_IMAP", "MASS_GIS", "ESTATED", "RENTCAST", "LEGACY", "CACHED"]

/-- `valuation_priority` list from `merge_property_records`. -/
def valuation_priority : List String :=
  ["RENTCAST", "ESTATED", "MD_IMAP", "MASS_GIS", "LEGACY", "CACHED"]

/-- The `reasons` lookup of `merge_property_records`. -/
def reasons_map : List (String × String) :=
  [("MD_IMAP", "official assessor (MD)"),
   ("MASS_GIS", "official assessor (MA)"),
   ("RENTCAST", "live valuation / rent API"),
   ("ESTATED", "nationwide enrichment"),
   ("LEGACY", "legacy aggregated provider"),
   ("CACHED", "cached snapshot")]

/-- The `FieldSourceInfo` entries appended by one `_pick_value` call:
one entry when a provider won, none otherwise. -/
def sourceEntry (field_name : String) (src : Option String) :
    List FieldSourceInfo :=
  match src with
  | some p => [⟨field_name, p, (dget reasons_map p).getD "prioritized provider"⟩]
  | none => []

def pick_beds (records : List NormalizedPropertyRecord) :=
  pick_value (fun r => r.beds) records assessor_priority

def pick_baths (records : List NormalizedPropertyRecord) :=
  pick_value (fun r => r.baths) records assessor_priority

def pick_sqft (records : List NormalizedPropertyRecord) :=
  pick_value (fun r => r.sqft) records assessor_priority

def pick_lot_sqft (records : List NormalizedPropertyRecord) :=
  pick_value (fun r => r.lot_sqft) records assessor_priority

def pick_year_built (records : List NormalizedPropertyRecord) :=
  pick_value (fun r => r.year_built) records assessor_priority

def pick_market_value (records : List NormalizedPropertyRecord) :=
  pick_value (fun r => r.market_value_estimate) records valuation_priority

def pick_rent (records : List NormalizedPropertyRecord) :=
  pick_value (fun r => r.rent_estimate) records valuation_priority

def pick_annual_taxes (records : List NormalizedPropertyRecord) :=
  pick_value (fun r => r.annual_taxes) records assessor_priority

def pick_closing_cost (records : List NormalizedPropertyRecord) :=
  pick_value (fun r => r.closing_cost_estimate) records valuation_priority

def pick_land_use (records : List NormalizedPropertyRecord) :=
  pick_value (fun r => r.land_use_code) records assessor_priority

def pick_property_type (records : List NormalizedPropertyRecord) :=
  pick_value (fun r => r.property_type) records assessor_priority

def pick_owner_name (records : List NormalizedPropertyRecord) :=
  pick_value (fun r => r.owner_name) records assessor_priority

/-- The geometry loop of `merge_property_records` walks
`assessor_priority` and takes the first record with a non-null
geometry — the same shape as `_pick_value` (no `FieldSourceInfo`). -/
def pick_geometry (records : List NormalizedPropertyRecord) :=
  pick_value (fun r => r.geometry) records assessor_priority

/-- The metadata pass of `merge_property_records`: fold one record's
`meta` into the accumulator with `setdefault` (first write wins). -/
def metaSetDefaults (m : List (String × String))
    (entries : List (String × String)) : List (String × String) :=
  entries.foldl (fun acc e => dsetdefault acc e.1 e.2) m

/-- `for record in records: for key, value in record.meta.items():
meta.setdefault(key, value)`. -/
def metaMergeRecords (records : List NormalizedPropertyRecord) :
    List (String × String) :=
  records.foldl (fun acc r => metaSetDefaults acc r.meta) []

/-- `meta[f"{field}.source"] = provider`, executed only when a provider
won the field (`if provider:` — `None` and the empty string are falsy). -/
def addSourceKey (m : List (String × String)) (field_name : String)
    (src : Option String) : List (String × String) :=
  match src with
  | some p => if p = "" then m else dset m (field_name ++ ".source") p
  | none => m

/-- `provider_to_api_source` mapping of `merge_property_records`. -/
def provider_to_api_source (p : String) : Option ApiSource :=
  if p = "MD_IMAP" then some .MD_IMAP
  else if p = "MASS_GIS" then some .MASS_GIS
  else if p = "RENTCAST" then some .RENTCAST
  else if p = "ESTATED" then some .ESTATED
  else if p = "LEGACY" then some .MOCK
  else if p = "CACHED" then some .MOCK
  else none

/-- The `sources` accumulation loop: map each record's provider to an
`ApiSource` and append first occurrences only. -/
def collectSources (records : List NormalizedPropertyRecord) : List ApiSource :=
  records.foldl
    (fun acc r =>
      match provider_to_api_source r.provider with
      | some s => if s ∈ acc then acc else acc ++ [s]
      | none => acc)
    []

/-- Insert a string into an ascending list (model of Python `sorted`). -/
def insertSorted (s : String) : List String → List String
  | [] => [s]
  | x :: t =>
    match compare x s with
    | .lt => x :: insertSorted s t
    | _ => s :: x :: t

/-- Python `sorted` on strings. -/
def sortStrings : List String → List String
  | [] => []
  | x :: t => insertSorted x (sortStrings t)

/-- Python `{record.provider for record in records}` materialised in
first-seen order (the order is irrelevant: the result is sorted). -/
def distinctList : List String → List String :=
  List.foldl (fun acc p => if p ∈ acc then acc else acc ++ [p]) []

/-- `",".join(sorted({record.provider for record in records}))`. -/
def dataSourcesValue (records : List NormalizedPropertyRecord) : String :=
  String.intercalate "," (sortStrings (distinctList (records.map (fun r => r.provider))))

/-- `src/services/property_merging.py` — `merge_property_records`.
The empty-input `ValueError` is embedded as `Except.error`. -/
def merge_property_records (records : List NormalizedPropertyRecord) :
    Except String MergedPropertyResult :=
  match records with
  | [] => .error "merge_property_records requires at least one record"
  | r0 :: rest =>
    let records := r0 :: rest
    let bedsP := pick_beds records
    let bathsP := pick_baths records
    let sqftP := pick_sqft records
    let lotP := pick_lot_sqft records
    let yearP := pick_year_built records
    let marketP := pick_market_value records
    let rentP := pick_rent records
    let taxesP := pick_annual_taxes records
    let closingP := pick_closing_cost records
    let meta0 := metaMergeRecords records
    let meta1 := addSourceKey meta0 "beds" bedsP.2
    let meta2 := addSourceKey meta1 "baths" bathsP.2
    let meta3 := addSourceKey meta2 "sqft" sqftP.2
    let meta4 := addSourceKey meta3 "lot_sqft" lotP.2
    let meta5 := addSourceKey meta4 "year_built" yearP.2
    let meta6 := addSourceKey meta5 "market_value_estimate" marketP.2
    let meta7 := addSourceKey meta6 "rent_estimate" rentP.2
    let meta8 := addSourceKey meta7 "annual_taxes" taxesP.2
    let meta9 := addSourceKey meta8 "closing_cost_estimate" closingP.2
    let meta10 := dset meta9 "dataSources" (dataSourcesValue records)
    let landP := pick_land_use records
    let typeP := pick_property_type records
    let ownerP := pick_owner_name records
    let meta11 := addSourceKey meta10 "land_use_code" landP.2
    let meta12 := addSourceKey meta11 "property_type" typeP.2
    let meta13 := addSourceKey meta12 "owner_name" ownerP.2
    let geomP := pick_geometry records
    let meta14 := addSourceKey meta13 "geometry" geomP.2
    .ok
      { property :=
          { address := r0.address
            beds := bedsP.1
            baths := bathsP.1
            sqft := sqftP.1
            lot_sqft := lotP.1
            year_built := yearP.1
            market_value_estimate := marketP.1
            rent_estimate := rentP.1
            annual_taxes := taxesP.1
            closing_cost_estimate := closingP.1
            meta := meta14
            sources := collectSources records
            provenance := [] }
        field_sources :=
          sourceEntry "beds" bedsP.2 ++ sourceEntry "baths" bathsP.2 ++
          sourceEntry "sqft" sqftP.2 ++ sourceEntry "lot_sqft" lotP.2 ++
          sourceEntry "year_built" yearP.2 ++
          sourceEntry "market_value_estimate" marketP.2 ++
          sourceEntry "rent_estimate" rentP.2 ++
          sourceEntry "annual_taxes" taxesP.2 ++
          sourceEntry "closing_cost_estimate" closingP.2 ++
          sourceEntry "land_use_code" landP.2 ++
          sourceEntry "property_type" typeP.2 ++
          sourceEntry "owner_name" ownerP.2
        all_raw_records := records }

/-- `cached_record_key`. -/
def cached_record_key (provider : String) (address : Address) : String :=
  provider ++ ":" ++ address.line1 ++ "|" ++ address.city ++ "|" ++
    address.state ++ "|" ++ address.zip

/-- `normalize_property_data`: re-wrap a canonical snapshot as a
provider record (`fetched_at` is the wall clock, passed explicitly). -/
def normalize_property_data (provider : String) (pd : PropertyData)
    (now : ℕ) (raw : Option String) : NormalizedPropertyRecord :=
  { provider := provider
    fetched_at := now
    address := pd.address
    beds := pd.beds
    baths := pd.baths
    sqft := pd.sqft
    lot_sqft := pd.lot_sqft
    year_built := pd.year_built
    market_value_estimate := pd.market_value_estimate
    rent_estimate := pd.rent_estimate
    annual_taxes := pd.annual_taxes
    closing_cost_estimate := pd.closing_cost_estimate
    raw := raw
    meta := pd.meta }

/-- The nine scalar fields of the canonical snapshot, used to compare
merge outputs while ignoring metadata / attributions / address. -/
structure CanonicalValues where
  beds : Option ℚ
  baths : Option ℚ
  sqft : Option ℕ
  lot_sqft : Option ℕ
  year_built : Option ℕ
  market_value_estimate : Option ℚ
  rent_estimate : Option ℚ
  annual_taxes : Option ℚ
  closing_cost_estimate : Option ℚ
deriving DecidableEq

/-- Project the nine resolved scalar values out of a snapshot. -/
def canonicalValues (pd : PropertyData) : CanonicalValues :=
  ⟨pd.beds, pd.baths, pd.sqft, pd.lot_sqft, pd.year_built,
   pd.market_value_estimate, pd.rent_estimate, pd.annual_taxes,
   pd.closing_cost_estimate⟩

/-- `src/services/data_providers/models.py` — `AreaIdentifier`. -/
structure AreaIdentifier where
  zip : Option String := none
  county : Option String := none
  state : Option String := none
  metro : Option String := none

/-- Python truthiness on an optional string (`None` and `""` are falsy). -/
def truthy : Option String → Option String
  | some s => if s = "" then none else some s
  | none => none

/-- `AreaIdentifier.label`. -/
def AreaIdentifier.label (a : AreaIdentifier) : String :=
  match truthy a.metro with
  | some m => m
  | none =>
    match truthy a.county, truthy a.state with
    | some c, some s => c ++ ", " ++ s
    | _, _ =>
      match truthy a.zip with
      | some z => z
      | none => "unknown"

/-- `src/services/data_providers/models.py` — `AreaRentBenchmark`. -/
structure AreaRentBenchmark where
  area : AreaIdentifier
  bedroom_count : Option ℕ
  rent : ℚ
  currency : String := "USD"
  year : Option ℕ := none

/-- `src/services/data_providers/models.py` — `PropertyDataPatch`.  The
`meta` values are `Option String` so the `v is not None` filter in
`apply` is representable. -/
structure PropertyDataPatch where
  beds : Option ℚ := none
  baths : Option ℚ := none
  sqft : Option ℕ := none
  lot_sqft : Option ℕ := none
  year_built : Option ℕ := none
  market_value_estimate : Option ℚ := none
  rent_estimate : Option ℚ := none
  annual_taxes : Option ℚ := none
  closing_cost_estimate : Option ℚ := none
  meta : List (String × Option String) := []
  fields : List String := []
  raw_reference : Option String := none

/-- The inner `choose(new, old)` of `PropertyDataPatch.apply`. -/
def choose {α : Type} (prefer_existing : Bool) (new old : Option α) :
    Option α :=
  if prefer_existing && old.isSome then old
  else
    match new with
    | some v => some v
    | none => old

/-- `{**existing.meta, **{k: v for k, v in self.meta.items() if v is not
None}}`: start from the existing dict and assign each surviving patch
entry in order. -/
def metaUnion (existing : List (String × String))
    (patchMeta : List (String × Option String)) : List (String × String) :=
  (patchMeta.filterMap (fun e => e.2.map (fun v => (e.1, v)))).foldl
    (fun acc e => dset acc e.1 e.2) existing

/-- `PropertyDataPatch.apply`. -/
def PropertyDataPatch.apply (p : PropertyDataPatch) (existing : PropertyData)
    (prefer_existing : Bool) : PropertyData :=
  { address := existing.address
    beds := choose prefer_existing p.beds existing.beds
    baths := choose prefer_existing p.baths existing.baths
    sqft := choose prefer_existing p.sqft existing.sqft
    lot_sqft := choose prefer_existing p.lot_sqft existing.lot_sqft
    year_built := choose prefer_existing p.year_built existing.year_built
    market_value_estimate :=
      choose prefer_existing p.market_value_estimate existing.market_value_estimate
    rent_estimate := choose prefer_existing p.rent_estimate existing.rent_estimate
    annual_taxes := choose prefer_existing p.annual_taxes existing.annual_taxes
    closing_cost_estimate :=
      choose prefer_existing p.closing_cost_estimate existing.closing_cost_estimate
    meta := metaUnion existing.meta p.meta
    sources := existing.sources
    provenance := existing.provenance }

/-- The `fields` list computed by `PropertyDataPatch.from_property_data`:
names of the nine scalar attributes with a non-null value, in
declaration order. -/
def presentFields (data : PropertyData) : List String :=
  (if data.beds.isSome then ["beds"] else []) ++
  (if data.baths.isSome then ["baths"] else []) ++
  (if data.sqft.isSome then ["sqft"] else []) ++
  (if data.lot_sqft.isSome then ["lot_sqft"] else []) ++
  (if data.year_built.isSome then ["year_built"] else []) ++
  (if data.market_value_estimate.isSome then ["market_value_estimate"] else []) ++
  (if data.rent_estimate.isSome then ["rent_estimate"] else []) ++
  (if data.annual_taxes.isSome then ["annual_taxes"] else []) ++
  (if data.closing_cost_estimate.isSome then ["closing_cost_estimate"] else [])

/-- `PropertyDataPatch.from_property_data`. -/
def PropertyDataPatch.from_property_data (data : PropertyData)
    (raw_reference : Option String) : PropertyDataPatch :=
  { beds := data.beds
    baths := data.baths
    sqft := data.sqft
    lot_sqft := data.lot_sqft
    year_built := data.year_built
    market_value_estimate := data.market_value_estimate
    rent_estimate := data.rent_estimate
    annual_taxes := data.annual_taxes
    closing_cost_estimate := data.closing_cost_estimate
    meta := data.meta.map (fun e => (e.1, some e.2))
    fields := presentFields data
    raw_reference := raw_reference }

/-- `src/services/data_providers/models.py` — `ProviderMetadata`. -/
structure ProviderMetadata where
  provider_name : String
  fetched_at : ℕ
  request_id : Option String := none

/-- `src/services/data_providers/models.py` — `ProviderResult`. The raw
payload is carried as its serialised JSON text. -/
structure ProviderResult where
  metadata : ProviderMetadata
  property_data : Option PropertyDataPatch := none
  area_rent_benchmarks : List AreaRentBenchmark := []
  raw_payload : Option String := none
  errors : List String := []

/-- `ProviderResult.provenance`. -/
def ProviderResult.provenance (pr : ProviderResult) : List SourceAttribution :=
  match pr.property_data with
  | none => []
  | some patch =>
    if patch.fields.isEmpty then []
    else
      [{ provider := pr.metadata.provider_name
         fields := patch.fields
         fetched_at := pr.metadata.fetched_at
         request_id := pr.metadata.request_id
         raw_reference := patch.raw_reference }]

/-- `src/services/data_providers/models.py` — `record_source`. -/
def record_source (property_data : PropertyData) (pr : ProviderResult)
    (api_source : Option ApiSource) : PropertyData :=
  { property_data with
    sources :=
      match api_source with
      | some s =>
        if s ∈ property_data.sources then property_data.sources
        else property_data.sources ++ [s]
      | none => property_data.sources
    provenance := property_data.provenance ++ pr.provenance }

/-- `DataAggregationService._try_source_enum`: `ApiSource(name)` with
`ValueError` caught. -/
def try_source_enum (name : String) : Option ApiSource :=
  if name = "zillow" then some .ZILLOW
  else if name = "rentometer" then some .RENTOMETER
  else if name = "attom" then some .ATTOM
  else if name = "closingcorp" then some .CLOSINGCORP
  else if name = "estated" then some .ESTATED
  else if name = "rentcast" then some .RENTCAST
  else if name = "redfin" then some .REDFIN
  else if name = "md_imap" then some .MD_IMAP
  else if name = "mass_gis" then some .MASS_GIS
  else if name = "mock" then some .MOCK
  else if name = "hud_fmr" then some .HUD
  else if name = "marketplace_comps" then some .MARKETPLACE
  else none

/-- One serialised entry of the `rent_benchmarks` metadata array. -/
structure BenchmarkEntry where
  provider : String
  bedroom_count : Option ℕ
  rent : ℚ
  currency : String
  year : Option ℕ
  area : String

def encOptNat : Option ℕ → String
  | none => "null"
  | some n => toString n

def decOptNat (s : String) : Option ℕ :=
  s.toNat?

def encRat (q : ℚ) : String :=
  toString q.num ++ "/" ++ toString q.den

def decRat (s : String) : Option ℚ :=
  match s.splitOn "/" with
  | [a, b] =>
    match a.toInt?, b.toNat? with
    | some n, some d => if d = 0 then none else some (mkRat n d)
    | _, _ => none
  | _ => none

/-- Modelled collaborator: `json.dumps` of one benchmark dict, as a
field-separated line (the exact text is irrelevant to every claim). -/
def encodeEntry (e : BenchmarkEntry) : String :=
  String.intercalate "|"
    [e.provider, encOptNat e.bedroom_count, encRat e.rent, e.currency,
     encOptNat e.year, e.area]

/-- Modelled collaborator: `json.loads` of one benchmark dict. -/
def decodeEntry (s : String) : Option BenchmarkEntry :=
  match s.splitOn "|" with
  | [p, b, r, c, y, a] =>
    (decRat r).map (fun q => ⟨p, decOptNat b, q, c, decOptNat y, a⟩)
  | _ => none

/-- Modelled collaborator: `json.dumps` of the benchmark array. -/
def encodeBenchmarks (l : List BenchmarkEntry) : String :=
  String.intercalate ";" (l.map encodeEntry)

/-- Modelled collaborator: `json.loads` of the benchmark array with the
`JSONDecodeError` fallback to the empty list. -/
def decodeBenchmarks (s : String) : List BenchmarkEntry :=
  (s.splitOn ";").filterMap decodeEntry

/-- The dict built for one benchmark inside `_apply_result`. -/
def benchmarkToEntry (provider : String) (b : AreaRentBenchmark) :
    BenchmarkEntry :=
  ⟨provider, b.bedroom_count, b.rent, b.currency, b.year, b.area.label⟩

/-- `src/services/data_providers/aggregation.py` —
`DataAggregationService._apply_result`.  A `None` provider result
returns the running snapshot unchanged; the `priority` argument of the
source is only logged and is omitted here. -/
def apply_result (existing : PropertyData)
    (provider_result : Option ProviderResult)
    (api_source : Option ApiSource) (prefer_existing : Bool) : PropertyData :=
  match provider_result with
  | none => existing
  | some pr =>
    let updated :=
      match pr.property_data with
      | some patch => patch.apply existing prefer_existing
      | none => existing
    let updated :=
      match pr.raw_payload, pr.property_data with
      | some payload, some patch =>
        let raw_key :=
          match truthy patch.raw_reference with
          | some r => r
          | none => pr.metadata.provider_name ++ "_raw"
        { updated with meta := dset updated.meta raw_key payload }
      | _, _ => updated
    let effective_source :=
      match api_source with
      | some s => some s
      | none => try_source_enum pr.metadata.provider_name
    let updated := record_source updated pr effective_source
    if pr.area_rent_benchmarks.isEmpty then updated
    else
      let existing_benchmarks :=
        match dget updated.meta "rent_benchmarks" with
        | some s => decodeBenchmarks s
        | none => []
      let merged := existing_benchmarks ++
        pr.area_rent_benchmarks.map
          (fun b => benchmarkToEntry pr.metadata.provider_name b)
      { updated with
        meta := dset updated.meta "rent_benchmarks" (encodeBenchmarks merged) }

/-- One tier of `DataAggregationService.aggregate`: fold the fetched
provider results (paired with their resolved `ApiSource`) over the
running snapshot. -/
def apply_tier (prefer_existing : Bool) (agg : PropertyData)
    (results : List (Option ProviderResult × Option ApiSource)) : PropertyData :=
  results.foldl (fun acc r => apply_result acc r.1 r.2 prefer_existing) agg

/-- `DataAggregationService.aggregate`: primary tier (new overrides
old), then open-data tier (old wins unless null), then the optional
marketplace provider (old wins unless null).  Each provider's
`fetch_for_property` outcome is passed in, since fetching is I/O. -/
def aggregate (address : Address) (existing : Option PropertyData)
    (primary : List (Option ProviderResult × Option ApiSource))
    (open_data : List (Option ProviderResult × Option ApiSource))
    (marketplace : Option (Option ProviderResult)) : PropertyData :=
  let agg0 := existing.getD { address := address }
  let agg1 := apply_tier false agg0 primary
  let agg2 := apply_tier true agg1 open_data
  match marketplace with
  | none => agg2
  | some pr => apply_result agg2 pr (some ApiSource.MARKETPLACE) true

/-- `src/services/data_providers/adapters.py` —
`LegacyProviderAdapter.fetch_for_property`.  The wrapped provider's
`fetch` either raises (embedded as `Except.error`, caught and turned
into `None`) or returns an optional snapshot. -/
def LegacyProviderAdapter.fetch_for_property
    (fetch_outcome : Except String (Option PropertyData))
    (name : String) (now : ℕ) : Option ProviderResult :=
  match fetch_outcome with
  | .error _ => none
  | .ok none => none
  | .ok (some result) =>
    let name' :=
      match result.sources with
      | [] => name
      | s :: _ => s.value
    let patch := PropertyDataPatch.from_property_data result (some (name' ++ "_raw"))
    some
      { metadata := { provider_name := name', fetched_at := now }
        property_data := some patch
        raw_payload :=
          if result.meta.isEmpty then none
          else
            match truthy patch.raw_reference with
            | some r => dget result.meta r
            | none => none }

/-! ### Lemmas about the dictionary operations -/

theorem dget_dset_self {β : Type} (m : List (String × β)) (k : String) (v : β) :
    dget (dset m k v) k = some v := by
  induction m with
  | nil => simp [dget, dset]
  | cons e t ih =>
    by_cases h : e.1 = k
    · simp [dget, dset, h]
    · simp [dget, dset, h, ih]

theorem dget_dset_ne {β : Type} (m : List (String × β)) {k k' : String}
    (v : β) (h : k' ≠ k) : dget (dset m k' v) k = dget m k := by
  induction m with
  | nil => simp [dget, dset, h]
  | cons e t ih =>
    by_cases he : e.1 = k'
    · have hd : dset (e :: t) k' v = (k', v) :: t := by simp [dset, he]
      have hek : ¬e.1 = k := by rw [he]; exact h
      rw [hd]
      simp [dget, h, hek]
    · have hd : dset (e :: t) k' v = e :: dset t k' v := by simp [dset, he]
      rw [hd]
      by_cases hk : e.1 = k
      · simp [dget, hk]
      · simp [dget, hk, ih]

theorem dget_dsetdefault {β : Type} (m : List (String × β)) (k₀ k : String)
    (v₀ : β) :
    dget (dsetdefault m k₀ v₀) k =
      match dget m k with
      | some v => some v
      | none => if k₀ = k then some v₀ else none := by
  induction m with
  | nil => simp [dget, dsetdefault]
  | cons e t ih =>
    by_cases he : e.1 = k₀
    · have hd : dsetdefault (e :: t) k₀ v₀ = e :: t := by simp [dsetdefault, he]
      rw [hd]
      by_cases hk : e.1 = k
      · simp [dget, hk]
      · have hk0 : k₀ = k ↔ False := by
          constructor
          · intro hc; exact hk (he.trans hc)
          · intro hc; exact hc.elim
        simp only [dget, if_neg hk, hk0, if_false]
        cases dget t k <;> rfl
    · have hd : dsetdefault (e :: t) k₀ v₀ = e :: dsetdefault t k₀ v₀ := by
        simp [dsetdefault, he]
      rw [hd]
      by_cases hk : e.1 = k
      · simp [dget, hk]
      · simp only [dget, if_neg hk, ih]

theorem dget_metaSetDefaults (m : List (String × String))
    (entries : List (String × String)) (k : String) :
    dget (metaSetDefaults m entries) k =
      match dget m k with
      | some v => some v
      | none => dget entries k := by
  induction entries generalizing m with
  | nil => cases h : dget m k <;> simp [metaSetDefaults, dget, h]
  | cons e t ih =>
    have step : metaSetDefaults m (e :: t) =
        metaSetDefaults (dsetdefault m e.1 e.2) t := rfl
    rw [step, ih, dget_dsetdefault]
    cases h : dget m k with
    | some v => simp
    | none =>
      by_cases hk : e.1 = k
      · simp [dget, hk]
      · simp [dget, hk]

theorem dget_metaMergeRecords_aux (l : List NormalizedPropertyRecord)
    (m : List (String × String)) (k : String) :
    dget (l.foldl (fun acc r => metaSetDefaults acc r.meta) m) k =
      match dget m k with
      | some v => some v
      | none => l.findSome? (fun r => dget r.meta k) := by
  induction l generalizing m with
  | nil => cases h : dget m k <;> simp [h]
  | cons r t ih =>
    have step : (r :: t).foldl (fun acc r => metaSetDefaults acc r.meta) m =
        t.foldl (fun acc r => metaSetDefaults acc r.meta)
          (metaSetDefaults m r.meta) := rfl
    rw [step, ih, dget_metaSetDefaults]
    cases h : dget m k with
    | some v => simp
    | none =>
      cases hr : dget r.meta k with
      | some v => simp [List.findSome?, hr]
      | none => simp [List.findSome?, hr]

theorem dget_metaMergeRecords (l : List NormalizedPropertyRecord) (k : String) :
    dget (metaMergeRecords l) k = l.findSome? (fun r => dget r.meta k) := by
  have h := dget_metaMergeRecords_aux l [] k
  simpa [metaMergeRecords, dget] using h

theorem dget_addSourceKey_ne (m : List (String × String))
    (field_name : String) (src : Option String) {k : String}
    (h : field_name ++ ".source" ≠ k) :
    dget (addSourceKey m field_name src) k = dget m k := by
  cases src with
  | none => rfl
  | some p =>
    by_cases hp : p = ""
    · simp [addSourceKey, hp]
    · simp [addSourceKey, hp, dget_dset_ne _ _ h]

/-! ### Lemmas about `scan_provider` and `pick_value` -/

theorem scan_cons_ne {α : Type} (f : NormalizedPropertyRecord → Option α)
    {p : String} {c : NormalizedPropertyRecord}
    (l : List NormalizedPropertyRecord) (h : c.provider ≠ p) :
    scan_provider f p (c :: l) = scan_provider f p l := by
  simp [scan_provider, h]

theorem scan_all_none {α : Type} {f : NormalizedPropertyRecord → Option α}
    (p : String) {l : List NormalizedPropertyRecord}
    (h : ∀ r ∈ l, f r = none) : scan_provider f p l = none := by
  induction l with
  | nil => rfl
  | cons r t ih =>
    have hr : f r = none := h r (List.mem_cons_self r t)
    have ht : ∀ r' ∈ t, f r' = none := fun r' hr' => h r' (List.mem_cons_of_mem _ hr')
    by_cases hp : r.provider = p
    · simp [scan_provider, hp, hr, ih ht]
    · simp [scan_provider, hp, ih ht]

theorem pick_value_all_none {α : Type} {f : NormalizedPropertyRecord → Option α}
    {l : List NormalizedPropertyRecord} (pri : List String)
    (h : ∀ r ∈ l, f r = none) : pick_value f l pri = (none, none) := by
  induction pri with
  | nil => rfl
  | cons p ps ih => simp [pick_value, scan_all_none p h, ih]

theorem scan_perm {α : Type} (f : NormalizedPropertyRecord → Option α)
    (p : String) {l l' : List NormalizedPropertyRecord} (h : l.Perm l') :
    (l.map (fun r => r.provider)).Nodup →
      scan_provider f p l = scan_provider f p l' := by
  induction h with
  | nil => intro _; rfl
  | cons x h ih =>
    intro hnd
    rw [List.map_cons] at hnd
    have hnd' := hnd.of_cons
    by_cases hx : x.provider = p
    · cases hfx : f x <;> simp [scan_provider, hx, hfx, ih hnd']
    · simp [scan_provider, hx, ih hnd']
  | swap x y l =>
    intro hnd
    rw [List.map_cons, List.map_cons] at hnd
    have hxy : y.provider ≠ x.provider := by
      intro heq
      exact (List.nodup_cons.mp hnd).1 (heq ▸ List.mem_cons_self _ _)
    by_cases hy : y.provider = p
    · have hx : x.provider ≠ p := fun hc => hxy (hy.trans hc.symm)
      cases hfy : f y <;> simp [scan_provider, hy, hx, hfy]
    · by_cases hx : x.provider = p
      · cases hfx : f x <;> simp [scan_provider, hy, hx, hfx]
      · simp [scan_provider, hy, hx]
  | trans h1 h2 ih1 ih2 =>
    intro hnd
    have hnd2 : _ := ((h1.map (fun r => r.provider)).nodup_iff).mp hnd
    exact (ih1 hnd).trans (ih2 hnd2)

theorem pick_value_perm {α : Type} (f : NormalizedPropertyRecord → Option α)
    (pri : List String) {l l' : List NormalizedPropertyRecord}
    (h : l.Perm l') (hnd : (l.map (fun r => r.provider)).Nodup) :
    pick_value f l pri = pick_value f l' pri := by
  induction pri with
  | nil => rfl
  | cons p ps ih =>
    rw [pick_value, pick_value, scan_perm f p h hnd]
    cases scan_provider f p l' with
    | some v => rfl
    | none => exact ih

theorem pick_value_single_fst {α : Type} (f : NormalizedPropertyRecord → Option α)
    (l : List NormalizedPropertyRecord) (p : String) :
    (pick_value f l [p]).1 = scan_provider f p l := by
  cases h : scan_provider f p l <;> simp [pick_value, h]

theorem scan_cons_cached {α : Type} (f : NormalizedPropertyRecord → Option α)
    {p : String} {c : NormalizedPropertyRecord}
    {l : List NormalizedPropertyRecord} (hc : c.provider = p)
    (hf : f c = scan_provider f p l) :
    scan_provider f p (c :: l) = scan_provider f p l := by
  rw [show scan_provider f p (c :: l) =
      (if c.provider = p then
        match f c with
        | some v => some v
        | none => scan_provider f p l
      else scan_provider f p l) from rfl]
  rw [if_pos hc, hf]
  cases scan_provider f p l <;> rfl

theorem pick_value_cons_cached {α : Type} (f : NormalizedPropertyRecord → Option α)
    {c : NormalizedPropertyRecord} (hc : c.provider = "CACHED")
    (pri₀ : List String) (l : List NormalizedPropertyRecord)
    (h₀ : "CACHED" ∉ pri₀)
    (hf : f c = (pick_value f l (pri₀ ++ ["CACHED"])).1) :
    pick_value f (c :: l) (pri₀ ++ ["CACHED"]) =
      pick_value f l (pri₀ ++ ["CACHED"]) := by
  induction pri₀ with
  | nil =>
    rw [List.nil_append] at hf ⊢
    rw [pick_value_single_fst] at hf
    have hs := scan_cons_cached f hc hf
    cases h : scan_provider f "CACHED" l with
    | some v => simp [pick_value, hs, h]
    | none => simp [pick_value, hs, h]
  | cons p ps ih =>
    have hp : p ≠ "CACHED" := fun hc' => h₀ (hc' ▸ List.mem_cons_self _ _)
    have hps : "CACHED" ∉ ps := fun hm => h₀ (List.mem_cons_of_mem _ hm)
    have hcp : c.provider ≠ p := fun hc' => hp ((hc.symm.trans hc').symm)
    have hscan : scan_provider f p (c :: l) = scan_provider f p l :=
      scan_cons_ne f l hcp
    rw [List.cons_append] at hf ⊢
    cases h : scan_provider f p l with
    | some v => simp [pick_value, hscan, h]
    | none =>
      have hf' : f c = (pick_value f l (ps ++ ["CACHED"])).1 := by
        rw [pick_value, h] at hf
        exact hf
      simp [pick_value, hscan, h, ih hps hf']

/-! ### Lemmas about `choose` (the core of `PropertyDataPatch.apply`) -/

theorem choose_keep {α : Type} (n o : Option α) (h : o ≠ none) :
    choose true n o = o := by
  have : o.isSome = true := Option.isSome_iff_ne_none.mpr h
  simp [choose, this]

theorem choose_fill {α : Type} (n o : Option α) (h : o = none) :
    choose true n o = n := by
  subst h
  cases n <;> simp [choose]

theorem choose_override {α : Type} (n o : Option α) (h : n ≠ none) :
    choose false n o = n := by
  cases n with
  | none => exact absurd rfl h
  | some v => simp [choose]

/-! ### Lemmas for the patch metadata union -/

theorem dget_foldl_dset_not_mem {β : Type} (b : List (String × β))
    (a : List (String × β)) {k : String}
    (h : k ∉ b.map (fun e => e.1)) :
    dget (b.foldl (fun m e => dset m e.1 e.2) a) k = dget a k := by
  induction b generalizing a with
  | nil => rfl
  | cons e t ih =>
    have hek : e.1 ≠ k := by
      intro hc
      exact h (by simp [hc])
    have ht : k ∉ t.map (fun e => e.1) := fun hm => h (by simp [hm])
    rw [show (e :: t).foldl (fun m e => dset m e.1 e.2) a =
        t.foldl (fun m e => dset m e.1 e.2) (dset a e.1 e.2) from rfl,
      ih _ ht, dget_dset_ne _ _ hek]

theorem dget_foldl_dset_of_mem {β : Type} (b : List (String × β))
    (a : List (String × β)) {k : String} {v : β}
    (hnd : (b.map (fun e => e.1)).Nodup) (hmem : (k, v) ∈ b) :
    dget (b.foldl (fun m e => dset m e.1 e.2) a) k = some v := by
  induction b generalizing a with
  | nil => exact absurd hmem (List.not_mem_nil _)
  | cons e t ih =>
    rw [List.map_cons] at hnd
    rcases List.mem_cons.mp hmem with heq | hmem'
    · subst heq
      have hk : k ∉ t.map (fun e => e.1) := (List.nodup_cons.mp hnd).1
      rw [show ((k, v) :: t).foldl (fun m e => dset m e.1 e.2) a =
          t.foldl (fun m e => dset m e.1 e.2) (dset a k v) from rfl,
        dget_foldl_dset_not_mem t _ hk, dget_dset_self]
    · exact ih _ (List.nodup_cons.mp hnd).2 hmem'

theorem filterMap_meta_keys_sublist (l : List (String × Option String)) :
    ((l.filterMap (fun e => e.2.map (fun v => (e.1, v)))).map
      (fun e => e.1)).Sublist (l.map (fun e => e.1)) := by
  induction l with
  | nil => simp
  | cons e t ih =>
    cases hv : e.2 with
    | none =>
      rw [show (e :: t).filterMap (fun e => e.2.map (fun v => (e.1, v))) =
          t.filterMap (fun e => e.2.map (fun v => (e.1, v))) by
        simp [List.filterMap_cons, hv], List.map_cons]
      exact ih.cons e.1
    | some v =>
      rw [show (e :: t).filterMap (fun e => e.2.map (fun v => (e.1, v))) =
          (e.1, v) :: t.filterMap (fun e => e.2.map (fun v => (e.1, v))) by
        simp [List.filterMap_cons, hv]]
      simpa using ih.cons₂ e.1

/-! ### Concrete records used by counterexamples and witnesses -/

def addrMain : Address :=
  { line1 := "1 MAIN ST", city := "AUSTIN", state := "TX", zip := "78701" }

/-- Two records from the *same* provider with conflicting bed counts. -/
def recDupA : NormalizedPropertyRecord :=
  { provider := "MD_IMAP", fetched_at := 0, address := addrMain, beds := some 1 }

def recDupB : NormalizedPropertyRecord :=
  { provider := "MD_IMAP", fetched_at := 0, address := addrMain, beds := some 2 }

/-- The MD_IMAP record of the spec's Scenario A. -/
def recMd : NormalizedPropertyRecord :=
  { provider := "MD_IMAP", fetched_at := 0, address := addrMain,
    lot_sqft := some 5000, year_built := some 1985 }

/-- The RENTCAST record of the spec's Scenario A. -/
def recRc : NormalizedPropertyRecord :=
  { provider := "RENTCAST", fetched_at := 0, address := addrMain,
    market_value_estimate := some 350000, rent_estimate := some 2500 }

/-- A record whose metadata collides with the engine's `dataSources` key. -/
def recMetaA : NormalizedPropertyRecord :=
  { provider := "MD_IMAP", fetched_at := 0, address := addrMain,
    meta := [("dataSources", "BOGUS")] }

def recMetaB : NormalizedPropertyRecord :=
  { provider := "RENTCAST", fetched_at := 0, address := addrMain,
    meta := [("dataSources", "OTHER"), ("note", "from rentcast")] }

/-- A generic fully-populated record for witnesses. -/
def recFull : NormalizedPropertyRecord :=
  { provider := "ESTATED", fetched_at := 7, address := addrMain,
    beds := some 3, baths := some 2, sqft := some 1500,
    lot_sqft := some 6000, year_built := some 1990,
    market_value_estimate := some 400000, rent_estimate := some 2100,
    annual_taxes := some 3200, closing_cost_estimate := some 9000,
    meta := [("origin", "estated")] }

/-- An existing snapshot with every scalar field populated. -/
def pdFull : PropertyData :=
  { address := addrMain, beds := some 3, baths := some 2, sqft := some 1500,
    lot_sqft := some 6000, year_built := some 1990,
    market_value_estimate := some 400000, rent_estimate := some 2100,
    annual_taxes := some 3200, closing_cost_estimate := some 9000,
    meta := [("a", "old"), ("keep", "1")] }

/-- An existing snapshot with every scalar field absent. -/
def pdEmpty : PropertyData :=
  { address := addrMain, meta := [("a", "old")] }

/-- A patch with every scalar field populated. -/
def patchFull : PropertyDataPatch :=
  { beds := some 4, baths := some 3, sqft := some 1600,
    lot_sqft := some 6500, year_built := some 1995,
    market_value_estimate := some 410000, rent_estimate := some 2200,
    annual_taxes := some 3300, closing_cost_estimate := some 9100,
    meta := [("a", some "new"), ("b", none), ("c", some "fresh")] }

/-- The metadata keys the merge engine itself writes after the
first-write-wins pass (per-field `<field>.source` audit keys,
`geometry.source` and `dataSources`). -/
def reserved_meta_keys : List String :=
  ["beds.source", "baths.source", "sqft.source", "lot_sqft.source",
   "year_built.source", "market_value_estimate.source",
   "rent_estimate.source", "annual_taxes.source",
   "closing_cost_estimate.source", "land_use_code.source",
   "property_type.source", "owner_name.source", "geometry.source",
   "dataSources"]

/-- A cache with a ten-minute TTL, as in spec Scenario B. -/
def cacheTen : ProviderCache := { ttl := 10, store := [] }

/-- The merge of `[recFull]`, extracted from its (always `.ok`) result. -/
def mergedFull : MergedPropertyResult :=
  match merge_property_records [recFull] with
  | .ok m => m
  | .error _ => ⟨{ address := addrMain }, [], []⟩

/-! ### Claim theorems -/

/-- Claim C8: `merge_property_records` called with an empty input
collection fails with the invalid-argument error (embedded as
`Except.error`), and this is the only input-arity condition that fails:
every non-empty input yields a result. -/
theorem merge_empty_raises :
    merge_property_records [] =
      .error "merge_property_records requires at least one record" ∧
    ∀ l : List NormalizedPropertyRecord, l ≠ [] →
      (merge_property_records l).isOk = true := by
  constructor
  · rfl
  · intro l hl
    cases l with
    | nil => exact absurd rfl hl
    | cons a t => rfl

/-- Witness for C8: the empty list errors and a concrete singleton
input succeeds. -/
theorem merge_empty_raises_witness :
    (merge_property_records [recFull]).isOk = true :=
  merge_empty_raises.2 [recFull] (List.cons_ne_nil _ _)

/-- Claim C4 (spec Scenario A): merging the MD_IMAP record
(lot_sqft=5000, year_built=1985) with the RENTCAST record
(market_value_estimate=350000, rent_estimate=2500) yields exactly those
values, attributed (in `field_sources` and in the `<field>.source`
metadata keys) to MD_IMAP and RENTCAST respectively. -/
theorem merge_scenario_md_imap_rentcast :
    (merge_property_records [recMd, recRc]).map
      (fun m =>
        (m.property.lot_sqft, m.property.year_built,
         m.property.market_value_estimate, m.property.rent_estimate,
         m.field_sources.map (fun s => (s.field, s.provider)),
         dget m.property.meta "lot_sqft.source",
         dget m.property.meta "year_built.source",
         dget m.property.meta "market_value_estimate.source",
         dget m.property.meta "rent_estimate.source")) =
    .ok (some 5000, some 1985, some 350000, some 2500,
      [("lot_sqft", "MD_IMAP"), ("year_built", "MD_IMAP"),
       ("market_value_estimate", "RENTCAST"), ("rent_estimate", "RENTCAST")],
      some "MD_IMAP", some "MD_IMAP", some "RENTCAST", some "RENTCAST") := rfl

/-- Claim C7: after `set(key, record)` at time `t`, a `get(key)` at any
time up to `t + ttl` returns the stored record, and a `get(key)` at any
time strictly after `t + ttl` returns absent (the lazily-evicting read
needs no explicit eviction call). -/
theorem cache_ttl_behaviour (c : ProviderCache) (key : String)
    (record : NormalizedPropertyRecord) (t t' : ℕ) :
    (t' ≤ t + c.ttl → ((c.set key record t).get key t').1 = some record) ∧
    (t + c.ttl < t' → ((c.set key record t).get key t').1 = none) := by
  have hstore : dget (c.set key record t).store key = some (t + c.ttl, record) :=
    dget_dset_self c.store key (t + c.ttl, record)
  constructor
  · intro h
    have hnl : ¬(t + c.ttl < t') := not_lt.mpr h
    simp [ProviderCache.get, hstore, hnl]
  · intro h
    simp [ProviderCache.get, hstore, h]

/-- Witness for C7 (spec Scenario B): with ttl=10, a set at t=0 under
the RENTCAST cache key is still returned at t=9 and is absent at t=11. -/
theorem cache_ttl_behaviour_witness :
    ((cacheTen.set (cached_record_key "RENTCAST" addrMain) recFull 0).get
      (cached_record_key "RENTCAST" addrMain) 9).1 = some recFull ∧
    ((cacheTen.set (cached_record_key "RENTCAST" addrMain) recFull 0).get
      (cached_record_key "RENTCAST" addrMain) 11).1 = none :=
  ⟨(cache_ttl_behaviour cacheTen (cached_record_key "RENTCAST" addrMain)
      recFull 0 9).1 (by decide),
   (cache_ttl_behaviour cacheTen (cached_record_key "RENTCAST" addrMain)
      recFull 0 11).2 (by decide)⟩

/-- Claim C2: `PropertyDataPatch.apply` with `prefer_existing=True`
(the open-data / gap-filling policy) keeps every non-null existing
scalar field and takes the patch value only where the existing value is
null; with `prefer_existing=False` (the primary policy) it takes the
patch value whenever the patch value is non-null. -/
theorem patch_apply_policy (existing : PropertyData) (patch : PropertyDataPatch) :
    ((existing.beds ≠ none → (patch.apply existing true).beds = existing.beds) ∧
     (existing.baths ≠ none → (patch.apply existing true).baths = existing.baths) ∧
     (existing.sqft ≠ none → (patch.apply existing true).sqft = existing.sqft) ∧
     (existing.lot_sqft ≠ none → (patch.apply existing true).lot_sqft = existing.lot_sqft) ∧
     (existing.year_built ≠ none → (patch.apply existing true).year_built = existing.year_built) ∧
     (existing.market_value_estimate ≠ none →
       (patch.apply existing true).market_value_estimate = existing.market_value_estimate) ∧
     (existing.rent_estimate ≠ none →
       (patch.apply existing true).rent_estimate = existing.rent_estimate) ∧
     (existing.annual_taxes ≠ none →
       (patch.apply existing true).annual_taxes = existing.annual_taxes) ∧
     (existing.closing_cost_estimate ≠ none →
       (patch.apply existing true).closing_cost_estimate = existing.closing_cost_estimate)) ∧
    ((existing.beds = none → (patch.apply existing true).beds = patch.beds) ∧
     (existing.baths = none → (patch.apply existing true).baths = patch.baths) ∧
     (existing.sqft = none → (patch.apply existing true).sqft = patch.sqft) ∧
     (existing.lot_sqft = none → (patch.apply existing true).lot_sqft = patch.lot_sqft) ∧
     (existing.year_built = none → (patch.apply existing true).year_built = patch.year_built) ∧
     (existing.market_value_estimate = none →
       (patch.apply existing true).market_value_estimate = patch.market_value_estimate) ∧
     (existing.rent_estimate = none →
       (patch.apply existing true).rent_estimate = patch.rent_estimate) ∧
     (existing.annual_taxes = none →
       (patch.apply existing true).annual_taxes = patch.annual_taxes) ∧
     (existing.closing_cost_estimate = none →
       (patch.apply existing true).closing_cost_estimate = patch.closing_cost_estimate)) ∧
    ((patch.beds ≠ none → (patch.apply existing false).beds = patch.beds) ∧
     (patch.baths ≠ none → (patch.apply existing false).baths = patch.baths) ∧
     (patch.sqft ≠ none → (patch.apply existing false).sqft = patch.sqft) ∧
     (patch.lot_sqft ≠ none → (patch.apply existing false).lot_sqft = patch.lot_sqft) ∧
     (patch.year_built ≠ none → (patch.apply existing false).year_built = patch.year_built) ∧
     (patch.market_value_estimate ≠ none →
       (patch.apply existing false).market_value_estimate = patch.market_value_estimate) ∧
     (patch.rent_estimate ≠ none →
       (patch.apply existing false).rent_estimate = patch.rent_estimate) ∧
     (patch.annual_taxes ≠ none →
       (patch.apply existing false).annual_taxes = patch.annual_taxes) ∧
     (patch.closing_cost_estimate ≠ none →
       (patch.apply existing false).closing_cost_estimate = patch.closing_cost_estimate)) :=
  ⟨⟨fun h => choose_keep _ _ h, fun h => choose_keep _ _ h,
    fun h => choose_keep _ _ h, fun h => choose_keep _ _ h,
    fun h => choose_keep _ _ h, fun h => choose_keep _ _ h,
    fun h => choose_keep _ _ h, fun h => choose_keep _ _ h,
    fun h => choose_keep _ _ h⟩,
   ⟨fun h => choose_fill _ _ h, fun h => choose_fill _ _ h,
    fun h => choose_fill _ _ h, fun h => choose_fill _ _ h,
    fun h => choose_fill _ _ h, fun h => choose_fill _ _ h,
    fun h => choose_fill _ _ h, fun h => choose_fill _ _ h,
    fun h => choose_fill _ _ h⟩,
   ⟨fun h => choose_override _ _ h, fun h => choose_override _ _ h,
    fun h => choose_override _ _ h, fun h => choose_override _ _ h,
    fun h => choose_override _ _ h, fun h => choose_override _ _ h,
    fun h => choose_override _ _ h, fun h => choose_override _ _ h,
    fun h => choose_override _ _ h⟩⟩

/-- Witness for C2: a fully-populated snapshot is untouched by a
gap-filling patch, an all-null snapshot is filled by it, and the
primary policy overwrites a fully-populated snapshot. -/
theorem patch_apply_policy_witness :
    ((patchFull.apply pdFull true).beds = pdFull.beds ∧
     (patchFull.apply pdFull true).baths = pdFull.baths ∧
     (patchFull.apply pdFull true).sqft = pdFull.sqft ∧
     (patchFull.apply pdFull true).lot_sqft = pdFull.lot_sqft ∧
     (patchFull.apply pdFull true).year_built = pdFull.year_built ∧
     (patchFull.apply pdFull true).market_value_estimate = pdFull.market_value_estimate ∧
     (patchFull.apply pdFull true).rent_estimate = pdFull.rent_estimate ∧
     (patchFull.apply pdFull true).annual_taxes = pdFull.annual_taxes ∧
     (patchFull.apply pdFull true).closing_cost_estimate = pdFull.closing_cost_estimate) ∧
    ((patchFull.apply pdEmpty true).beds = patchFull.beds ∧
     (patchFull.apply pdEmpty true).baths = patchFull.baths ∧
     (patchFull.apply pdEmpty true).sqft = patchFull.sqft ∧
     (patchFull.apply pdEmpty true).lot_sqft = patchFull.lot_sqft ∧
     (patchFull.apply pdEmpty true).year_built = patchFull.year_built ∧
     (patchFull.apply pdEmpty true).market_value_estimate = patchFull.market_value_estimate ∧
     (patchFull.apply pdEmpty true).rent_estimate = patchFull.rent_estimate ∧
     (patchFull.apply pdEmpty true).annual_taxes = patchFull.annual_taxes ∧
     (patchFull.apply pdEmpty true).closing_cost_estimate = patchFull.closing_cost_estimate) ∧
    ((patchFull.apply pdFull false).beds = patchFull.beds ∧
     (patchFull.apply pdFull false).baths = patchFull.baths ∧
     (patchFull.apply pdFull false).sqft = patchFull.sqft ∧
     (patchFull.apply pdFull false).lot_sqft = patchFull.lot_sqft ∧
     (patchFull.apply pdFull false).year_built = patchFull.year_built ∧
     (patchFull.apply pdFull false).market_value_estimate = patchFull.market_value_estimate ∧
     (patchFull.apply pdFull false).rent_estimate = patchFull.rent_estimate ∧
     (patchFull.apply pdFull false).annual_taxes = patchFull.annual_taxes ∧
     (patchFull.apply pdFull false).closing_cost_estimate = patchFull.closing_cost_estimate) := by
  obtain ⟨k1, k2, k3, k4, k5, k6, k7, k8, k9⟩ := (patch_apply_policy pdFull patchFull).1
  obtain ⟨f1, f2, f3, f4, f5, f6, f7, f8, f9⟩ := (patch_apply_policy pdEmpty patchFull).2.1
  obtain ⟨o1, o2, o3, o4, o5, o6, o7, o8, o9⟩ := (patch_apply_policy pdFull patchFull).2.2
  exact ⟨⟨k1 (by decide), k2 (by decide), k3 (by decide), k4 (by decide),
          k5 (by decide), k6 (by decide), k7 (by decide), k8 (by decide),
          k9 (by decide)⟩,
         ⟨f1 rfl, f2 rfl, f3 rfl, f4 rfl, f5 rfl, f6 rfl, f7 rfl, f8 rfl,
          f9 rfl⟩,
         ⟨o1 (by decide), o2 (by decide), o3 (by decide), o4 (by decide),
          o5 (by decide), o6 (by decide), o7 (by decide), o8 (by decide),
          o9 (by decide)⟩⟩

/-- Claim C10 (implicit): `PropertyDataPatch.apply` merges metadata so
that every non-None patch metadata entry overwrites a colliding key of
the existing snapshot regardless of `prefer_existing` — the gap-filling
policy governs only the scalar fields. -/
theorem patch_meta_overwrites (existing : PropertyData)
    (patch : PropertyDataPatch) (prefer_existing : Bool) (k v : String)
    (hnd : (patch.meta.map (fun e => e.1)).Nodup)
    (hmem : (k, some v) ∈ patch.meta) :
    dget (patch.apply existing prefer_existing).meta k = some v := by
  have hb : (k, v) ∈ patch.meta.filterMap (fun e => e.2.map (fun v => (e.1, v))) :=
    List.mem_filterMap.mpr ⟨(k, some v), hmem, rfl⟩
  have hbnd : ((patch.meta.filterMap
      (fun e => e.2.map (fun v => (e.1, v)))).map (fun e => e.1)).Nodup :=
    hnd.sublist (filterMap_meta_keys_sublist patch.meta)
  exact dget_foldl_dset_of_mem _ existing.meta hbnd hb

/-- Witness for C10: the patch entry `("a", "new")` overwrites the
existing `("a", "old")` even under the gap-filling policy. -/
theorem patch_meta_overwrites_witness :
    dget (patchFull.apply pdFull true).meta "a" = some "new" :=
  patch_meta_overwrites pdFull patchFull true "a" "new" (by decide) (by decide)

/-- Claim C3: if no input record has a non-null value for a field, the
merged record's field is absent — `_pick_value` has no fallback beyond
the explicit priority lists, for each of the nine scalar fields. -/
theorem merge_no_fabrication (l : List NormalizedPropertyRecord) (hl : l ≠ []) :
    ((∀ r ∈ l, r.beds = none) →
      (merge_property_records l).map (fun m => m.property.beds) = .ok none) ∧
    ((∀ r ∈ l, r.baths = none) →
      (merge_property_records l).map (fun m => m.property.baths) = .ok none) ∧
    ((∀ r ∈ l, r.sqft = none) →
      (merge_property_records l).map (fun m => m.property.sqft) = .ok none) ∧
    ((∀ r ∈ l, r.lot_sqft = none) →
      (merge_property_records l).map (fun m => m.property.lot_sqft) = .ok none) ∧
    ((∀ r ∈ l, r.year_built = none) →
      (merge_property_records l).map (fun m => m.property.year_built) = .ok none) ∧
    ((∀ r ∈ l, r.market_value_estimate = none) →
      (merge_property_records l).map (fun m => m.property.market_value_estimate) = .ok none) ∧
    ((∀ r ∈ l, r.rent_estimate = none) →
      (merge_property_records l).map (fun m => m.property.rent_estimate) = .ok none) ∧
    ((∀ r ∈ l, r.annual_taxes = none) →
      (merge_property_records l).map (fun m => m.property.annual_taxes) = .ok none) ∧
    ((∀ r ∈ l, r.closing_cost_estimate = none) →
      (merge_property_records l).map (fun m => m.property.closing_cost_estimate) = .ok none) := by
  cases l with
  | nil => exact absurd rfl hl
  | cons a t =>
    refine ⟨?_, ?_, ?_, ?_, ?_, ?_, ?_, ?_, ?_⟩
    · intro h
      show Except.ok (pick_value (fun r => r.beds) (a :: t) assessor_priority).1 =
        Except.ok none
      rw [pick_value_all_none assessor_priority h]
    · intro h
      show Except.ok (pick_value (fun r => r.baths) (a :: t) assessor_priority).1 =
        Except.ok none
      rw [pick_value_all_none assessor_priority h]
    · intro h
      show Except.ok (pick_value (fun r => r.sqft) (a :: t) assessor_priority).1 =
        Except.ok none
      rw [pick_value_all_none assessor_priority h]
    · intro h
      show Except.ok (pick_value (fun r => r.lot_sqft) (a :: t) assessor_priority).1 =
        Except.ok none
      rw [pick_value_all_none assessor_priority h]
    · intro h
      show Except.ok (pick_value (fun r => r.year_built) (a :: t) assessor_priority).1 =
        Except.ok none
      rw [pick_value_all_none assessor_priority h]
    · intro h
      show Except.ok (pick_value (fun r => r.market_value_estimate) (a :: t)
        valuation_priority).1 = Except.ok none
      rw [pick_value_all_none valuation_priority h]
    · intro h
      show Except.ok (pick_value (fun r => r.rent_estimate) (a :: t)
        valuation_priority).1 = Except.ok none
      rw [pick_value_all_none valuation_priority h]
    · intro h
      show Except.ok (pick_value (fun r => r.annual_taxes) (a :: t)
        assessor_priority).1 = Except.ok none
      rw [pick_value_all_none assessor_priority h]
    · intro h
      show Except.ok (pick_value (fun r => r.closing_cost_estimate) (a :: t)
        valuation_priority).1 = Except.ok none
      rw [pick_value_all_none valuation_priority h]

/-- Witness for C3: merging a record with no scalar values yields a
snapshot with every scalar field absent. -/
theorem merge_no_fabrication_witness :
    ((merge_property_records [recMetaA]).map (fun m => m.property.beds) = .ok none) ∧
    ((merge_property_records [recMetaA]).map (fun m => m.property.baths) = .ok none) ∧
    ((merge_property_records [recMetaA]).map (fun m => m.property.sqft) = .ok none) ∧
    ((merge_property_records [recMetaA]).map (fun m => m.property.lot_sqft) = .ok none) ∧
    ((merge_property_records [recMetaA]).map (fun m => m.property.year_built) = .ok none) ∧
    ((merge_property_records [recMetaA]).map (fun m => m.property.market_value_estimate) = .ok none) ∧
    ((merge_property_records [recMetaA]).map (fun m => m.property.rent_estimate) = .ok none) ∧
    ((merge_property_records [recMetaA]).map (fun m => m.property.annual_taxes) = .ok none) ∧
    ((merge_property_records [recMetaA]).map (fun m => m.property.closing_cost_estimate) = .ok none) := by
  obtain ⟨h1, h2, h3, h4, h5, h6, h7, h8, h9⟩ :=
    merge_no_fabrication [recMetaA] (List.cons_ne_nil _ _)
  exact ⟨h1 (by decide), h2 (by decide), h3 (by decide), h4 (by decide),
         h5 (by decide), h6 (by decide), h7 (by decide), h8 (by decide),
         h9 (by decide)⟩

/-- Counterexample to claim C1 as stated: two same-address records from
the *same* provider (MD_IMAP) with conflicting bed counts.  Swapping
them is a permutation, yet the resolved `beds` value changes, because
`_pick_value` scans the records in input order within one provider. -/
theorem merge_perm_counterexample :
    ([recDupA, recDupB] : List NormalizedPropertyRecord).Perm [recDupB, recDupA] ∧
    recDupA.address = recDupB.address ∧
    (merge_property_records [recDupA, recDupB]).map (fun m => m.property.beds) =
      .ok (some 1) ∧
    (merge_property_records [recDupB, recDupA]).map (fun m => m.property.beds) =
      .ok (some 2) :=
  ⟨List.Perm.swap _ _ _, rfl, rfl, rfl⟩

/-- Claim C1 (amended): for input lists whose records come from
pairwise-distinct providers — the situation the spec describes, one
normalized record per provider P1..Pn — permuting the input never
changes the nine resolved field values or any `FieldSourceInfo`
(winning provider and reason included); only the metadata merge is
order-sensitive. -/
theorem merge_perm_of_distinct_providers (l l' : List NormalizedPropertyRecord)
    (h : l.Perm l') (hnd : (l.map (fun r => r.provider)).Nodup) :
    (merge_property_records l).map
      (fun m => (canonicalValues m.property, m.field_sources)) =
    (merge_property_records l').map
      (fun m => (canonicalValues m.property, m.field_sources)) := by
  cases l with
  | nil =>
    have hnil : l' = [] := h.symm.eq_nil
    subst hnil
    rfl
  | cons a t =>
    cases l' with
    | nil => exact absurd h.eq_nil (by simp)
    | cons b t' =>
      have h1 : pick_beds (a :: t) = pick_beds (b :: t') :=
        pick_value_perm (fun r => r.beds) assessor_priority h hnd
      have h2 : pick_baths (a :: t) = pick_baths (b :: t') :=
        pick_value_perm (fun r => r.baths) assessor_priority h hnd
      have h3 : pick_sqft (a :: t) = pick_sqft (b :: t') :=
        pick_value_perm (fun r => r.sqft) assessor_priority h hnd
      have h4 : pick_lot_sqft (a :: t) = pick_lot_sqft (b :: t') :=
        pick_value_perm (fun r => r.lot_sqft) assessor_priority h hnd
      have h5 : pick_year_built (a :: t) = pick_year_built (b :: t') :=
        pick_value_perm (fun r => r.year_built) assessor_priority h hnd
      have h6 : pick_market_value (a :: t) = pick_market_value (b :: t') :=
        pick_value_perm (fun r => r.market_value_estimate) valuation_priority h hnd
      have h7 : pick_rent (a :: t) = pick_rent (b :: t') :=
        pick_value_perm (fun r => r.rent_estimate) valuation_priority h hnd
      have h8 : pick_annual_taxes (a :: t) = pick_annual_taxes (b :: t') :=
        pick_value_perm (fun r => r.annual_taxes) assessor_priority h hnd
      have h9 : pick_closing_cost (a :: t) = pick_closing_cost (b :: t') :=
        pick_value_perm (fun r => r.closing_cost_estimate) valuation_priority h hnd
      have h10 : pick_land_use (a :: t) = pick_land_use (b :: t') :=
        pick_value_perm (fun r => r.land_use_code) assessor_priority h hnd
      have h11 : pick_property_type (a :: t) = pick_property_type (b :: t') :=
        pick_value_perm (fun r => r.property_type) assessor_priority h hnd
      have h12 : pick_owner_name (a :: t) = pick_owner_name (b :: t') :=
        pick_value_perm (fun r => r.owner_name) assessor_priority h hnd
      simp only [merge_property_records, Except.map, canonicalValues]
      rw [h1, h2, h3, h4, h5, h6, h7, h8, h9, h10, h11, h12]

/-- Witness for C1: the Scenario A records in both orders resolve to
the same canonical values and field attributions. -/
theorem merge_perm_of_distinct_providers_witness :
    (merge_property_records [recMd, recRc]).map
      (fun m => (canonicalValues m.property, m.field_sources)) =
    (merge_property_records [recRc, recMd]).map
      (fun m => (canonicalValues m.property, m.field_sources)) :=
  merge_perm_of_distinct_providers [recMd, recRc] [recRc, recMd]
    (List.Perm.swap _ _ _) (by decide)

/-- Counterexample to claim C5 as stated: the key `dataSources` occurs
in both input records' metadata, yet the merged output carries the
engine's computed provider list (`MD_IMAP,RENTCAST`), not the earliest
record's value (`BOGUS`) — the merge overwrites its own audit keys
after the first-write-wins pass. -/
theorem meta_first_write_counterexample :
    dget recMetaA.meta "dataSources" = some "BOGUS" ∧
    dget recMetaB.meta "dataSources" = some "OTHER" ∧
    (merge_property_records [recMetaA, recMetaB]).map
      (fun m => dget m.property.meta "dataSources") =
      .ok (some "MD_IMAP,RENTCAST") ∧
    (some "MD_IMAP,RENTCAST" : Option String) ≠ some "BOGUS" :=
  ⟨rfl, rfl, rfl, by decide⟩

/-- Claim C5 (amended): metadata merging is first-write-wins in input
order for every key the merge engine does not itself write afterwards
(the per-field `<field>.source` audit keys, `geometry.source` and
`dataSources`): the output carries the value from the earliest input
record that has the key, and later records never overwrite it. -/
theorem meta_first_write_wins_unreserved (l : List NormalizedPropertyRecord)
    (hl : l ≠ []) (k : String) (hk : k ∉ reserved_meta_keys) :
    (merge_property_records l).map (fun m => dget m.property.meta k) =
      .ok (l.findSome? (fun r => dget r.meta k)) := by
  cases l with
  | nil => exact absurd rfl hl
  | cons a t =>
    simp only [reserved_meta_keys, List.mem_cons, List.not_mem_nil, or_false,
      not_or] at hk
    obtain ⟨n1, n2, n3, n4, n5, n6, n7, n8, n9, n10, n11, n12, n13, n14⟩ := hk
    simp only [merge_property_records, Except.map]
    rw [dget_addSourceKey_ne _ "geometry" _ (fun hc => n13 hc.symm),
      dget_addSourceKey_ne _ "owner_name" _ (fun hc => n12 hc.symm),
      dget_addSourceKey_ne _ "property_type" _ (fun hc => n11 hc.symm),
      dget_addSourceKey_ne _ "land_use_code" _ (fun hc => n10 hc.symm),
      dget_dset_ne _ _ (fun hc => n14 hc.symm),
      dget_addSourceKey_ne _ "closing_cost_estimate" _ (fun hc => n9 hc.symm),
      dget_addSourceKey_ne _ "annual_taxes" _ (fun hc => n8 hc.symm),
      dget_addSourceKey_ne _ "rent_estimate" _ (fun hc => n7 hc.symm),
      dget_addSourceKey_ne _ "market_value_estimate" _ (fun hc => n6 hc.symm),
      dget_addSourceKey_ne _ "year_built" _ (fun hc => n5 hc.symm),
      dget_addSourceKey_ne _ "lot_sqft" _ (fun hc => n4 hc.symm),
      dget_addSourceKey_ne _ "sqft" _ (fun hc => n3 hc.symm),
      dget_addSourceKey_ne _ "baths" _ (fun hc => n2 hc.symm),
      dget_addSourceKey_ne _ "beds" _ (fun hc => n1 hc.symm),
      dget_metaMergeRecords]

/-- Witness for C5 (amended): the unreserved key `note` appears only in
the second record and is carried through; a colliding unreserved key
would keep the first record's value by the same theorem. -/
theorem meta_first_write_wins_unreserved_witness :
    (merge_property_records [recMetaA, recMetaB]).map
      (fun m => dget m.property.meta "note") =
      .ok (([recMetaA, recMetaB] : List NormalizedPropertyRecord).findSome?
        (fun r => dget r.meta "note")) :=
  meta_first_write_wins_unreserved [recMetaA, recMetaB]
    (List.cons_ne_nil _ _) "note" (by decide)

/-- Claim C6: re-merging is idempotent on canonical values — normalize
the canonical output back into a record under the `CACHED` provider,
prepend it to the original inputs, and merge again: the nine canonical
field values are unchanged (the `CACHED` provider sits at the end of
both priority lists, so it can only supply a field no other provider
supplied, and then it supplies the very value of the first merge). -/
theorem canonical_merge_cons_cached (l : List NormalizedPropertyRecord)
    (hl : l ≠ []) (c : NormalizedPropertyRecord) (hc : c.provider = "CACHED")
    (h1 : c.beds = (pick_beds l).1)
    (h2 : c.baths = (pick_baths l).1)
    (h3 : c.sqft = (pick_sqft l).1)
    (h4 : c.lot_sqft = (pick_lot_sqft l).1)
    (h5 : c.year_built = (pick_year_built l).1)
    (h6 : c.market_value_estimate = (pick_market_value l).1)
    (h7 : c.rent_estimate = (pick_rent l).1)
    (h8 : c.annual_taxes = (pick_annual_taxes l).1)
    (h9 : c.closing_cost_estimate = (pick_closing_cost l).1) :
    (merge_property_records (c :: l)).map
      (fun m2 => canonicalValues m2.property) =
    (merge_property_records l).map
      (fun m2 => canonicalValues m2.property) := by
  cases l with
  | nil => exact absurd rfl hl
  | cons a t =>
    have p1 : pick_beds (c :: a :: t) = pick_beds (a :: t) :=
      pick_value_cons_cached (fun r => r.beds) hc
        ["MD_IMAP", "MASS_GIS", "ESTATED", "RENTCAST", "LEGACY"] (a :: t)
        (by decide) h1
    have p2 : pick_baths (c :: a :: t) = pick_baths (a :: t) :=
      pick_value_cons_cached (fun r => r.baths) hc
        ["MD_IMAP", "MASS_GIS", "ESTATED", "RENTCAST", "LEGACY"] (a :: t)
        (by decide) h2
    have p3 : pick_sqft (c :: a :: t) = pick_sqft (a :: t) :=
      pick_value_cons_cached (fun r => r.sqft) hc
        ["MD_IMAP", "MASS_GIS", "ESTATED", "RENTCAST", "LEGACY"] (a :: t)
        (by decide) h3
    have p4 : pick_lot_sqft (c :: a :: t) = pick_lot_sqft (a :: t) :=
      pick_value_cons_cached (fun r => r.lot_sqft) hc
        ["MD_IMAP", "MASS_GIS", "ESTATED", "RENTCAST", "LEGACY"] (a :: t)
        (by decide) h4
    have p5 : pick_year_built (c :: a :: t) = pick_year_built (a :: t) :=
      pick_value_cons_cached (fun r => r.year_built) hc
        ["MD_IMAP", "MASS_GIS", "ESTATED", "RENTCAST", "LEGACY"] (a :: t)
        (by decide) h5
    have p6 : pick_market_value (c :: a :: t) = pick_market_value (a :: t) :=
      pick_value_cons_cached (fun r => r.market_value_estimate) hc
        ["RENTCAST", "ESTATED", "MD_IMAP", "MASS_GIS", "LEGACY"] (a :: t)
        (by decide) h6
    have p7 : pick_rent (c :: a :: t) = pick_rent (a :: t) :=
      pick_value_cons_cached (fun r => r.rent_estimate) hc
        ["RENTCAST", "ESTATED", "MD_IMAP", "MASS_GIS", "LEGACY"] (a :: t)
        (by decide) h7
    have p8 : pick_annual_taxes (c :: a :: t) = pick_annual_taxes (a :: t) :=
      pick_value_cons_cached (fun r => r.annual_taxes) hc
        ["MD_IMAP", "MASS_GIS", "ESTATED", "RENTCAST", "LEGACY"] (a :: t)
        (by decide) h8
    have p9 : pick_closing_cost (c :: a :: t) = pick_closing_cost (a :: t) :=
      pick_value_cons_cached (fun r => r.closing_cost_estimate) hc
        ["RENTCAST", "ESTATED", "MD_IMAP", "MASS_GIS", "LEGACY"] (a :: t)
        (by decide) h9
    simp only [merge_property_records, Except.map, canonicalValues]
    rw [p1, p2, p3, p4, p5, p6, p7, p8, p9]

/-- Claim C6: re-merging is idempotent on canonical values — normalize
the canonical output back into a record under the `CACHED` provider,
prepend it to the original inputs, and merge again: the nine canonical
field values are unchanged (the `CACHED` provider sits at the end of
both priority lists, so it can only supply a field no other provider
supplied, and then it supplies the very value of the first merge). -/
theorem merge_idempotent_remerge (l : List NormalizedPropertyRecord)
    (m : MergedPropertyResult) (hm : merge_property_records l = .ok m)
    (now : ℕ) (raw : Option String) :
    (merge_property_records
        (normalize_property_data "CACHED" m.property now raw :: l)).map
      (fun m2 => canonicalValues m2.property) =
    .ok (canonicalValues m.property) := by
  cases l with
  | nil => simp [merge_property_records] at hm
  | cons a t =>
    simp only [merge_property_records] at hm
    injection hm with hm
    subst hm
    refine (canonical_merge_cons_cached (a :: t) (List.cons_ne_nil _ _)
      _ ?_ ?_ ?_ ?_ ?_ ?_ ?_ ?_ ?_ ?_).trans rfl
    all_goals rfl

/-- Witness for C6: normalizing the merge of `[recFull]` back in as the
cached record and re-merging leaves the canonical values unchanged. -/
theorem merge_idempotent_remerge_witness :
    (merge_property_records
        (normalize_property_data "CACHED" mergedFull.property 9 none :: [recFull])).map
      (fun m2 => canonicalValues m2.property) =
    .ok (canonicalValues mergedFull.property) :=
  merge_idempotent_remerge [recFull] mergedFull rfl 9 none

/-- Helper for C9: dropping a `None` provider outcome from a tier's
result list does not change the tier fold. -/
theorem apply_tier_none_middle (prefer_existing : Bool) (agg : PropertyData)
    (rs1 rs2 : List (Option ProviderResult × Option ApiSource))
    (src : Option ApiSource) :
    apply_tier prefer_existing agg (rs1 ++ (none, src) :: rs2) =
    apply_tier prefer_existing agg (rs1 ++ rs2) := by
  rw [apply_tier, apply_tier, List.foldl_append, List.foldl_append,
    List.foldl_cons]
  rfl

/-- Claim C9: a provider returning no result is a no-op for its tier and
never aborts aggregation — the legacy adapter catches a raising fetch
and yields `None`; `_apply_result` on `None` returns the snapshot
unchanged; a `None` outcome in the primary tier, the open-data tier or
the marketplace slot leaves the whole aggregation equal to the
aggregation without that provider, so the remaining providers are still
applied. -/
theorem provider_failure_noop :
    (∀ (err name : String) (now : ℕ),
      LegacyProviderAdapter.fetch_for_property (.error err) name now = none) ∧
    (∀ (existing : PropertyData) (src : Option ApiSource) (pe : Bool),
      apply_result existing none src pe = existing) ∧
    (∀ (addr : Address) (ex : Option PropertyData)
      (rs1 rs2 : List (Option ProviderResult × Option ApiSource))
      (src : Option ApiSource)
      (od : List (Option ProviderResult × Option ApiSource))
      (mk : Option (Option ProviderResult)),
      aggregate addr ex (rs1 ++ (none, src) :: rs2) od mk =
        aggregate addr ex (rs1 ++ rs2) od mk) ∧
    (∀ (addr : Address) (ex : Option PropertyData)
      (pm : List (Option ProviderResult × Option ApiSource))
      (os1 os2 : List (Option ProviderResult × Option ApiSource))
      (src : Option ApiSource) (mk : Option (Option ProviderResult)),
      aggregate addr ex pm (os1 ++ (none, src) :: os2) mk =
        aggregate addr ex pm (os1 ++ os2) mk) ∧
    (∀ (addr : Address) (ex : Option PropertyData)
      (pm od : List (Option ProviderResult × Option ApiSource)),
      aggregate addr ex pm od (some none) = aggregate addr ex pm od none) ∧
    (∀ (addr : Address) (ex : Option PropertyData)
      (rs1 rs2 : List (Option ProviderResult × Option ApiSource))
      (err name : String) (now : ℕ) (src : Option ApiSource)
      (od : List (Option ProviderResult × Option ApiSource))
      (mk : Option (Option ProviderResult)),
      aggregate addr ex
        (rs1 ++ (LegacyProviderAdapter.fetch_for_property (.error err) name now,
          src) :: rs2) od mk =
        aggregate addr ex (rs1 ++ rs2) od mk) := by
  have htier : ∀ (addr : Address) (ex : Option PropertyData)
      (rs1 rs2 : List (Option ProviderResult × Option ApiSource))
      (src : Option ApiSource)
      (od : List (Option ProviderResult × Option ApiSource))
      (mk : Option (Option ProviderResult)),
      aggregate addr ex (rs1 ++ (none, src) :: rs2) od mk =
        aggregate addr ex (rs1 ++ rs2) od mk := by
    intro addr ex rs1 rs2 src od mk
    simp only [aggregate, apply_tier_none_middle]
  refine ⟨fun _ _ _ => rfl, fun _ _ _ => rfl, htier, ?_, fun _ _ _ _ => rfl, ?_⟩
  · intro addr ex pm os1 os2 src mk
    simp only [aggregate, apply_tier_none_middle]
  · intro addr ex rs1 rs2 err name now src od mk
    exact htier addr ex rs1 rs2 src od mk

/-- Witness for C9: a concrete aggregation with one failed primary
provider equals the aggregation without it. -/
theorem provider_failure_noop_witness :
    aggregate addrMain none ([] ++ (none, none) :: []) [] none =
      aggregate addrMain none ([] ++ []) [] none :=
  provider_failure_noop.2.2.1 addrMain none [] [] none [] none
